import Mathlib

/-!
Verification development for the loopgpt-backend manifest generators
(src/scripts/generate_manifest_v2.py and
src/scripts/generate_manifest_v2_approved.py).

The two scripts hold static registries `TOOLS` (active tool definitions)
and `DEPRECATED_ALIASES` (deprecated-name redirects) and a function
`generate_manifest` that folds both registries into a single manifest
document.  Python dicts preserve insertion order, so each registry is
embedded as an association list; JSON objects with optional keys are
embedded as structures with `Option` fields (`none` = key absent).
-/

set_option maxRecDepth 4000

/-- The nested object under an `items` key of a property schema
(always of the shape `"items": ⟨"type": t⟩` in the source). -/
structure ItemsSchema where
  type : String
deriving DecidableEq, Repr

/-- One property of an `input_schema`: its JSON keys `type`,
`description`, and the optional `enum`, `default`, `items`. -/
structure PropSchema where
  type : String
  description : String
  enum : Option (List String) := none
  default : Option Nat := none
  items : Option ItemsSchema := none
deriving DecidableEq, Repr

/-- An `input_schema` object: `type`, ordered `properties`, and the
optional `required` list (`none` when the key is absent). -/
structure InputSchema where
  type : String
  properties : List (String × PropSchema)
  required : Option (List String) := none
deriving DecidableEq, Repr

/-- A value of the `TOOLS` registry (the tool's name is the key). -/
structure ToolDefinition where
  category : String
  description : String
  input_schema : InputSchema
deriving DecidableEq, Repr

/-- A value of the `DEPRECATED_ALIASES` registry (the alias name is the key). -/
structure DeprecatedAlias where
  redirect_to : String
  description : String
  category : String
deriving DecidableEq, Repr

/-- The `api` block of the manifest metadata. -/
structure Api where
  type : String
  url : String
deriving DecidableEq, Repr

/-- The `authentication` block of the manifest metadata. -/
structure Authentication where
  type : String
deriving DecidableEq, Repr

/-- One element of the manifest's `tools` array.  Active entries are
emitted without `redirect_to` and `deprecated` keys (`none` here);
alias entries carry both. -/
structure ManifestTool where
  name : String
  category : String
  description : String
  input_schema : InputSchema
  redirect_to : Option String := none
  deprecated : Option Bool := none
deriving DecidableEq, Repr

/-- The whole manifest document built by `generate_manifest`. -/
structure ManifestDocument where
  name : String
  description : String
  version : String
  schema_version : String
  «namespace» : String
  contact_email : String
  api : Api
  authentication : Authentication
  tools : List ManifestTool
deriving DecidableEq, Repr

/-- Body of the first loop of `generate_manifest`: the manifest entry
built from one `(name, spec)` item of the `TOOLS` registry. -/
def activeEntry (p : String × ToolDefinition) : ManifestTool :=
  { name := p.1
    category := p.2.category
    description := p.2.description
    input_schema := p.2.input_schema }

/-- Body of the second loop of `generate_manifest`: the manifest entry
built from one `(name, spec)` item of the `DEPRECATED_ALIASES`
registry, with `deprecated: True` and an empty-object schema. -/
def aliasEntry (p : String × DeprecatedAlias) : ManifestTool :=
  { name := p.1
    category := p.2.category
    description := p.2.description
    redirect_to := some p.2.redirect_to
    deprecated := some true
    input_schema := { type := "object", properties := [], required := none } }

/-- `true` exactly when the entry was emitted by the alias loop
(`deprecated` key present and `True`). -/
def ManifestTool.isDeprecatedEntry (t : ManifestTool) : Bool :=
  match t.deprecated with
  | some true => true
  | _ => false

/-- `true` exactly when the entry has no `deprecated` key. -/
def ManifestTool.isActiveEntry (t : ManifestTool) : Bool :=
  match t.deprecated with
  | none => true
  | _ => false

namespace V2

/-- `generate_manifest` of src/scripts/generate_manifest_v2.py,
abstracted over the two module-level registries it iterates: the fixed
metadata block, then all active tools, then all deprecated aliases. -/
def generate_manifest (tools_reg : List (String × ToolDefinition))
    (aliases_reg : List (String × DeprecatedAlias)) : ManifestDocument :=
  { name := "TheLoopGPT.ai"
    description := "A comprehensive AI-powered nutrition and wellness platform with adaptive feedback loops. TheLoopGPT.ai provides personalized meal planning, weight tracking, nutrition analysis, and delivery integration across 100+ languages and 25 countries."
    version := "2.0.0"
    schema_version := "v1"
    «namespace» := "loopgpt"
    contact_email := "support@theloopgpt.ai"
    api := { type := "openai-mcp"
             url := "https://qmagnwxeijctkksqbcqz.supabase.co/functions/v1/mcp-server" }
    authentication := { type := "none" }
    tools := tools_reg.map activeEntry ++ aliases_reg.map aliasEntry }

end V2

namespace Approved

/-- `generate_manifest` of src/scripts/generate_manifest_v2_approved.py,
abstracted over its two module-level registries; its body is
line-for-line the same as the original script's. -/
def generate_manifest (tools_reg : List (String × ToolDefinition))
    (aliases_reg : List (String × DeprecatedAlias)) : ManifestDocument :=
  { name := "TheLoopGPT.ai"
    description := "A comprehensive AI-powered nutrition and wellness platform with adaptive feedback loops. TheLoopGPT.ai provides personalized meal planning, weight tracking, nutrition analysis, and delivery integration across 100+ languages and 25 countries."
    version := "2.0.0"
    schema_version := "v1"
    «namespace» := "loopgpt"
    contact_email := "support@theloopgpt.ai"
    api := { type := "openai-mcp"
             url := "https://qmagnwxeijctkksqbcqz.supabase.co/functions/v1/mcp-server" }
    authentication := { type := "none" }
    tools := tools_reg.map activeEntry ++ aliases_reg.map aliasEntry }

end Approved
namespace V2

def TOOLS : List (String × ToolDefinition) := [
  ("user_get_profile",
   { category := "User Profile & Goals",
     description := "Use when you need to retrieve the active user's diet preferences, allergies, current goals, or profile information. This is a read-only setup tool that provides context for meal planning and tracking.",
     input_schema :=
       { type := "object",
         properties := [
           ("user_id", { type := "string", description := "Unique user identifier" })],
         required := some ["user_id"] } }),
  ("user_set_weight_goal",
   { category := "User Profile & Goals",
     description := "Use when a user expresses a weight goal such as 'I want to lose 5 kg', 'gain muscle', or 'maintain my current weight'. This sets the active goal used by planning and tracking tools. Call this BEFORE creating meal plans.",
     input_schema :=
       { type := "object",
         properties := [
           ("user_id", { type := "string", description := "Unique user identifier" }),
           ("target_weight_kg", { type := "number", description := "Target weight in kilograms" }),
           ("goal_type", { type := "string", description := "Type of weight goal", enum := some ["loss", "gain", "maintain"] }),
           ("target_date", { type := "string", description := "Optional target date (ISO 8601)" })],
         required := some ["user_id", "target_weight_kg", "goal_type"] } }),
  ("user_update_diet_preferences",
   { category := "User Profile & Goals",
     description := "Use when the user specifies diet restrictions or macro preferences such as 'I'm vegan', 'no dairy', 'high protein', or 'keto diet'. This updates their nutrition profile and affects future meal plan generation.",
     input_schema :=
       { type := "object",
         properties := [
           ("user_id", { type := "string", description := "Unique user identifier" }),
           ("diet_tags", { type := "array", description := "Diet types (vegan, keto, etc.)", items := some { type := "string" } }),
           ("allergies", { type := "array", description := "Food allergies or exclusions", items := some { type := "string" } })],
         required := some ["user_id"] } }),
  ("user_get_goals",
   { category := "User Profile & Goals",
     description := "Use when you need to retrieve the list of currently active user goals (weight, calories, macros). This is a read-only tool for checking what goals are set.",
     input_schema :=
       { type := "object",
         properties := [
           ("user_id", { type := "string", description := "Unique user identifier" })],
         required := some ["user_id"] } }),
  ("user_reset_profile",
   { category := "User Profile & Goals",
     description := "Use when the user says 'start over', 'reset everything', or 'clear my profile'. This resets all stored goals and diet preferences so the user can begin fresh.",
     input_schema :=
       { type := "object",
         properties := [
           ("user_id", { type := "string", description := "Unique user identifier" })],
         required := some ["user_id"] } }),
  ("plan_create_meal_plan",
   { category := "Meal Planning",
     description := "Use when a user asks for a daily or weekly meal plan such as 'Make me a 7-day plan', 'I need a meal plan for this week', or 'Create a diet plan for me'. This generates a complete plan aligned with the user's active goals. Call ONLY AFTER a goal has been set with user_set_weight_goal.",
     input_schema :=
       { type := "object",
         properties := [
           ("user_id", { type := "string", description := "Unique user identifier" }),
           ("duration_days", { type := "integer", description := "Number of days (1-30)", default := some 7 }),
           ("calorie_target", { type := "number", description := "Daily calorie target" }),
           ("diet", { type := "string", description := "Diet type (vegan, keto, etc.)" }),
           ("meals_per_day", { type := "integer", description := "Number of meals per day", default := some 3 }),
           ("allergies", { type := "array", description := "Food allergies", items := some { type := "string" } }),
           ("cuisine_preferences", { type := "array", description := "Preferred cuisines", items := some { type := "string" } })],
         required := some ["user_id", "calorie_target"] } }),
  ("plan_generate_from_leftovers",
   { category := "Meal Planning",
     description := "Use when the user lists ingredients on hand and asks 'What can I make?', 'I have eggs and spinach', or 'Use up my leftovers'. This creates one or more meals from available ingredients using the nutrition database.",
     input_schema :=
       { type := "object",
         properties := [
           ("user_id", { type := "string", description := "Unique user identifier" }),
           ("ingredients", { type := "array", description := "Available ingredients", items := some { type := "string" } })],
         required := some ["user_id", "ingredients"] } }),
  ("plan_random_meal",
   { category := "Meal Planning",
     description := "Use when the user asks for a quick meal suggestion such as 'Give me a healthy dinner idea', 'Suggest a breakfast', or 'Random meal for lunch'. This is a lightweight generator for single meal ideas.",
     input_schema :=
       { type := "object",
         properties := [
           ("user_id", { type := "string", description := "Unique user identifier" }),
           ("meal_type", { type := "string", description := "Type of meal", enum := some ["breakfast", "lunch", "dinner", "snack"] })],
         required := some ["user_id", "meal_type"] } }),
  ("plan_customize_meal_plan",
   { category := "Meal Planning",
     description := "Use when the user wants to modify an existing plan with feedback such as 'Add more protein', 'Swap dinner 2 for something else', or 'Make it less spicy'. This is a mutation tool that edits active plans.",
     input_schema :=
       { type := "object",
         properties := [
           ("user_id", { type := "string", description := "Unique user identifier" }),
           ("plan_id", { type := "string", description := "Plan identifier to customize" }),
           ("instructions", { type := "string", description := "Natural language modification instructions" })],
         required := some ["user_id", "plan_id", "instructions"] } }),
  ("plan_get_active_plan",
   { category := "Meal Planning",
     description := "Use when you need to fetch the user's current active meal plan for review, reuse, or reference. This is a read-only tool that retrieves stored plans.",
     input_schema :=
       { type := "object",
         properties := [
           ("user_id", { type := "string", description := "Unique user identifier" }),
           ("plan_id", { type := "string", description := "Optional specific plan ID" })],
         required := some ["user_id"] } }),
  ("nutrition_analyze_food",
   { category := "Nutrition Analysis",
     description := "Use when the user lists foods or recipes and asks 'What's in this?', 'How many calories?', 'Analyze this smoothie', or 'Nutrition facts for...'. This returns detailed macros and micros per serving using the 1,000-food database.",
     input_schema :=
       { type := "object",
         properties := [
           ("ingredients", { type := "array", description := "List of ingredients", items := some { type := "string" } }),
           ("quantity", { type := "number", description := "Serving quantity" }),
           ("unit", { type := "string", description := "Unit of measurement" })],
         required := some ["ingredients"] } }),
  ("nutrition_get_macros",
   { category := "Nutrition Analysis",
     description := "Use when you need to summarize total macros from an existing plan or tracker entry. This aggregates calories, protein, carbs, and fat from multiple sources.",
     input_schema :=
       { type := "object",
         properties := [
           ("source_id", { type := "string", description := "Plan ID or tracker ID" }),
           ("source_type", { type := "string", description := "Type of source", enum := some ["plan", "tracker"] })],
         required := some ["source_id", "source_type"] } }),
  ("nutrition_compare_foods",
   { category := "Nutrition Analysis",
     description := "Use when the user asks to compare two foods such as 'Chicken vs Tofu', 'Which has more protein?', or 'Compare brown rice and quinoa'. This returns nutritional differences side-by-side.",
     input_schema :=
       { type := "object",
         properties := [
           ("food_a", { type := "string", description := "First food name" }),
           ("food_b", { type := "string", description := "Second food name" })],
         required := some ["food_a", "food_b"] } }),
  ("nutrition_get_recommendations",
   { category := "Nutrition Analysis",
     description := "Use when the user asks 'What foods are high in iron/protein/fiber?', 'Best sources of vitamin C?', or 'Foods rich in...'. This is a discovery tool that lists foods by nutrient content.",
     input_schema :=
       { type := "object",
         properties := [
           ("nutrient_name", { type := "string", description := "Nutrient to search for (e.g., 'protein', 'iron', 'vitamin C')" })],
         required := some ["nutrient_name"] } }),
  ("tracker_log_meal",
   { category := "Tracking & Progress",
     description := "Use when the user records a meal or snack manually such as 'I ate oatmeal for breakfast', 'Log my lunch', or 'I had a protein shake'. This creates a tracker entry for adherence monitoring.",
     input_schema :=
       { type := "object",
         properties := [
           ("user_id", { type := "string", description := "Unique user identifier" }),
           ("meal_name", { type := "string", description := "Name of the meal" }),
           ("ingredients", { type := "array", description := "List of ingredients", items := some { type := "string" } }),
           ("time", { type := "string", description := "Time of meal (ISO 8601)" }),
           ("calories", { type := "number", description := "Optional manual calorie entry" })],
         required := some ["user_id", "meal_name"] } }),
  ("tracker_log_weight",
   { category := "Tracking & Progress",
     description := "Use when the user provides current weight such as 'I weigh 72 kg today', 'My weight is 160 lbs', or 'Log my weight'. This updates the weight trend used by the feedback loop.",
     input_schema :=
       { type := "object",
         properties := [
           ("user_id", { type := "string", description := "Unique user identifier" }),
           ("weight_kg", { type := "number", description := "Weight in kilograms" }),
           ("date", { type := "string", description := "Date of measurement (ISO 8601)" }),
           ("notes", { type := "string", description := "Optional notes" })],
         required := some ["user_id", "weight_kg"] } }),
  ("tracker_get_progress",
   { category := "Tracking & Progress",
     description := "Use when you need to retrieve historical weight and macro trends for charts or summaries. This returns time-series data for visualization.",
     input_schema :=
       { type := "object",
         properties := [
           ("user_id", { type := "string", description := "Unique user identifier" }),
           ("timespan_days", { type := "integer", description := "Number of days to retrieve (7, 30, 90)" })],
         required := some ["user_id", "timespan_days"] } }),
  ("tracker_summary",
   { category := "Tracking & Progress",
     description := "Use when the user asks 'How am I doing?', 'Show my progress', or 'Weekly summary'. This aggregates macros, adherence, and goal progress for a specified period.",
     input_schema :=
       { type := "object",
         properties := [
           ("user_id", { type := "string", description := "Unique user identifier" }),
           ("period", { type := "string", description := "Summary period", enum := some ["day", "week", "month"] })],
         required := some ["user_id", "period"] } }),
  ("loop_evaluate_plan",
   { category := "Feedback Loop",
     description := "Use when the user asks 'Did I follow the plan?', 'How well did I do?', or 'Evaluate my adherence'. This compares the active plan versus actual tracking data to measure compliance.",
     input_schema :=
       { type := "object",
         properties := [
           ("user_id", { type := "string", description := "Unique user identifier" }),
           ("plan_id", { type := "string", description := "Plan identifier to evaluate" }),
           ("tracker_range", { type := "string", description := "Date range for tracker data" })],
         required := some ["user_id", "plan_id"] } }),
  ("loop_adjust_calories",
   { category := "Feedback Loop",
     description := "Use when the user says 'Adjust my meals', 'I didn't lose enough weight', or 'Increase my calories'. This modifies the calorie target or macros for future plans based on results.",
     input_schema :=
       { type := "object",
         properties := [
           ("user_id", { type := "string", description := "Unique user identifier" }),
           ("adjustment_factor", { type := "number", description := "Multiplier for adjustment (0.9 = -10%, 1.1 = +10%)" }),
           ("new_target", { type := "number", description := "Optional explicit new calorie target" })],
         required := some ["user_id"] } }),
  ("loop_generate_feedback_report",
   { category := "Feedback Loop",
     description := "Use when you need to create a summarized AI feedback report for the user such as 'You hit 85% consistency this week'. This generates human-readable narrative feedback.",
     input_schema :=
       { type := "object",
         properties := [
           ("user_id", { type := "string", description := "Unique user identifier" }),
           ("period", { type := "string", description := "Period to summarize (week, month)" })],
         required := some ["user_id", "period"] } }),
  ("loop_predict_outcome",
   { category := "Feedback Loop",
     description := "Use when the user asks 'What will I weigh in 2 weeks?', 'Predict my progress', or 'When will I reach my goal?'. This forecasts future progress based on current trend.",
     input_schema :=
       { type := "object",
         properties := [
           ("user_id", { type := "string", description := "Unique user identifier" }),
           ("days_ahead", { type := "integer", description := "Number of days to forecast" })],
         required := some ["user_id", "days_ahead"] } }),
  ("loop_reset_cycle",
   { category := "Feedback Loop",
     description := "Use when starting a new evaluation cycle. This resets weekly loop data and begins a fresh feedback period.",
     input_schema :=
       { type := "object",
         properties := [
           ("user_id", { type := "string", description := "Unique user identifier" })],
         required := some ["user_id"] } }),
  ("delivery_search_restaurants",
   { category := "Delivery & Integrations",
     description := "Use when the user asks for nearby delivery options matching their diet plan such as 'Find vegan restaurants', 'Delivery near me', or 'Where can I order keto food?'. This uses MealMe / DoorDash API.",
     input_schema :=
       { type := "object",
         properties := [
           ("location", { type := "string", description := "Address or coordinates" }),
           ("diet_tags", { type := "array", description := "Diet filters (vegan, keto, etc.)", items := some { type := "string" } })],
         required := some ["location"] } }),
  ("delivery_get_menu",
   { category := "Delivery & Integrations",
     description := "Use to fetch the menu for a given restaurant ID. This is a supporting data helper tool.",
     input_schema :=
       { type := "object",
         properties := [
           ("restaurant_id", { type := "string", description := "Restaurant identifier from search" })],
         required := some ["restaurant_id"] } }),
  ("delivery_place_order",
   { category := "Delivery & Integrations",
     description := "Use when the user says 'Order my lunch', 'Place this order', or 'Checkout'. This places a food order through partner APIs (Premium feature).",
     input_schema :=
       { type := "object",
         properties := [
           ("user_id", { type := "string", description := "Unique user identifier" }),
           ("restaurant_id", { type := "string", description := "Restaurant identifier" }),
           ("menu_item_id", { type := "string", description := "Menu item to order" })],
         required := some ["user_id", "restaurant_id", "menu_item_id"] } }),
  ("delivery_track_order",
   { category := "Delivery & Integrations",
     description := "Use to check delivery status for a previously placed order. This is an optional B2C tool.",
     input_schema :=
       { type := "object",
         properties := [
           ("order_id", { type := "string", description := "Order identifier from place_order" })],
         required := some ["order_id"] } }),
  ("sys_get_help",
   { category := "System & Support",
     description := "Use when the user asks 'What can you do?', 'List all tools', or 'Help me understand your features'. This provides a developer-facing tool list with usage examples.",
     input_schema :=
       { type := "object",
         properties := [],
         required := none } }),
  ("sys_healthcheck",
   { category := "System & Support",
     description := "Use for monitoring or debugging. Returns system status, active manifest version, and database checksum.",
     input_schema :=
       { type := "object",
         properties := [],
         required := none } }),
  ("sys_debug_tool_choice_log",
   { category := "System & Support",
     description := "Use to log tool-selection context for QA and routing accuracy analysis. This is a dev-only tool that tracks which tool was chosen and why.",
     input_schema :=
       { type := "object",
         properties := [
           ("input", { type := "string", description := "User's original query" }),
           ("chosen_tool", { type := "string", description := "Tool that was selected" }),
           ("confidence", { type := "number", description := "Confidence score (0-1)" })],
         required := some ["input", "chosen_tool"] } })]

def DEPRECATED_ALIASES : List (String × DeprecatedAlias) := [
  ("tracker_set_goals",
   { redirect_to := "user_set_weight_goal",
     description := "[DEPRECATED] Alias for user_set_weight_goal. Use only if legacy code still calls this name. Will be removed in v2.1.0.",
     category := "Deprecated" }),
  ("tracker_quick_add_calories",
   { redirect_to := "tracker_log_meal",
     description := "[DEPRECATED] Alias for tracker_log_meal. Use only if legacy code still calls this name. Will be removed in v2.1.0.",
     category := "Deprecated" }),
  ("get_weight_prefs",
   { redirect_to := "user_get_profile",
     description := "[DEPRECATED] Alias for user_get_profile. Use only if legacy code still calls this name. Will be removed in v2.1.0.",
     category := "Deprecated" }),
  ("update_weight_prefs",
   { redirect_to := "user_update_diet_preferences",
     description := "[DEPRECATED] Alias for user_update_diet_preferences. Use only if legacy code still calls this name. Will be removed in v2.1.0.",
     category := "Deprecated" }),
  ("generate_week_plan",
   { redirect_to := "plan_create_meal_plan",
     description := "[DEPRECATED] Alias for plan_create_meal_plan. Use only if legacy code still calls this name. Will be removed in v2.1.0.",
     category := "Deprecated" }),
  ("recipes_creative_recipe",
   { redirect_to := "plan_generate_from_leftovers",
     description := "[DEPRECATED] Alias for plan_generate_from_leftovers. Use only if legacy code still calls this name. Will be removed in v2.1.0.",
     category := "Deprecated" }),
  ("log_meal_plan",
   { redirect_to := "plan_get_active_plan",
     description := "[DEPRECATED] Alias for plan_get_active_plan. Use only if legacy code still calls this name. Will be removed in v2.1.0.",
     category := "Deprecated" }),
  ("nutrition_analyze",
   { redirect_to := "nutrition_analyze_food",
     description := "[DEPRECATED] Alias for nutrition_analyze_food. Use only if legacy code still calls this name. Will be removed in v2.1.0.",
     category := "Deprecated" }),
  ("normalize_ingredients",
   { redirect_to := "nutrition_get_macros",
     description := "[DEPRECATED] Alias for nutrition_get_macros. Use only if legacy code still calls this name. Will be removed in v2.1.0.",
     category := "Deprecated" }),
  ("tracker_log_food",
   { redirect_to := "tracker_log_meal",
     description := "[DEPRECATED] Alias for tracker_log_meal. Use only if legacy code still calls this name. Will be removed in v2.1.0.",
     category := "Deprecated" }),
  ("log_weight",
   { redirect_to := "tracker_log_weight",
     description := "[DEPRECATED] Alias for tracker_log_weight. Use only if legacy code still calls this name. Will be removed in v2.1.0.",
     category := "Deprecated" }),
  ("weekly_trend",
   { redirect_to := "tracker_get_progress",
     description := "[DEPRECATED] Alias for tracker_get_progress. Use only if legacy code still calls this name. Will be removed in v2.1.0.",
     category := "Deprecated" }),
  ("tracker_get_daily_summary",
   { redirect_to := "tracker_summary",
     description := "[DEPRECATED] Alias for tracker_summary. Use only if legacy code still calls this name. Will be removed in v2.1.0.",
     category := "Deprecated" }),
  ("evaluate_plan_outcome",
   { redirect_to := "loop_evaluate_plan",
     description := "[DEPRECATED] Alias for loop_evaluate_plan. Use only if legacy code still calls this name. Will be removed in v2.1.0.",
     category := "Deprecated" }),
  ("push_plan_feedback",
   { redirect_to := "loop_adjust_calories",
     description := "[DEPRECATED] Alias for loop_adjust_calories. Use only if legacy code still calls this name. Will be removed in v2.1.0.",
     category := "Deprecated" }),
  ("mealme_search",
   { redirect_to := "delivery_search_restaurants",
     description := "[DEPRECATED] Alias for delivery_search_restaurants. Use only if legacy code still calls this name. Will be removed in v2.1.0.",
     category := "Deprecated" }),
  ("get_delivery_recommendations",
   { redirect_to := "delivery_get_menu",
     description := "[DEPRECATED] Alias for delivery_get_menu. Use only if legacy code still calls this name. Will be removed in v2.1.0.",
     category := "Deprecated" }),
  ("mealme_order_plan",
   { redirect_to := "delivery_place_order",
     description := "[DEPRECATED] Alias for delivery_place_order. Use only if legacy code still calls this name. Will be removed in v2.1.0.",
     category := "Deprecated" })]

end V2

namespace Approved

def TOOLS : List (String × ToolDefinition) := [
  ("user_get_profile",
   { category := "User Profile & Goals",
     description := "Use when you need to retrieve the active user's diet preferences, allergies, current goals, or profile information. This is a read-only setup tool that provides context for meal planning and tracking.",
     input_schema :=
       { type := "object",
         properties := [
           ("user_id", { type := "string", description := "Unique user identifier" })],
         required := some ["user_id"] } }),
  ("user_set_weight_goal",
   { category := "User Profile & Goals",
     description := "Use when a user expresses a weight goal such as 'I want to lose 5 kg', 'gain muscle', or 'maintain my current weight'. This sets the active goal used by planning and tracking tools. Call this BEFORE creating meal plans.",
     input_schema :=
       { type := "object",
         properties := [
           ("user_id", { type := "string", description := "Unique user identifier" }),
           ("target_weight_kg", { type := "number", description := "Target weight in kilograms" }),
           ("goal_type", { type := "string", description := "Type of weight goal", enum := some ["loss", "gain", "maintain"] }),
           ("target_date", { type := "string", description := "Optional target date (ISO 8601)" })],
         required := some ["user_id", "target_weight_kg", "goal_type"] } }),
  ("user_update_diet_preferences",
   { category := "User Profile & Goals",
     description := "Use when the user specifies diet restrictions or macro preferences such as 'I'm vegan', 'no dairy', 'high protein', or 'keto diet'. This updates their nutrition profile and affects future meal plan generation.",
     input_schema :=
       { type := "object",
         properties := [
           ("user_id", { type := "string", description := "Unique user identifier" }),
           ("diet_tags", { type := "array", description := "Diet types (vegan, keto, etc.)", items := some { type := "string" } }),
           ("allergies", { type := "array", description := "Food allergies or exclusions", items := some { type := "string" } })],
         required := some ["user_id"] } }),
  ("plan_create_meal_plan",
   { category := "Meal Planning",
     description := "Use when a user asks for a daily or weekly meal plan such as 'Make me a 7-day plan', 'I need a meal plan for this week', or 'Create a diet plan for me'. This generates a complete plan aligned with the user's active goals. Use only after user_set_weight_goal or when an explicit calorie target is provided.",
     input_schema :=
       { type := "object",
         properties := [
           ("user_id", { type := "string", description := "Unique user identifier" }),
           ("duration_days", { type := "integer", description := "Number of days (1-30)", default := some 7 }),
           ("calorie_target", { type := "number", description := "Daily calorie target" }),
           ("diet", { type := "string", description := "Diet type (vegan, keto, etc.)" }),
           ("meals_per_day", { type := "integer", description := "Number of meals per day", default := some 3 }),
           ("allergies", { type := "array", description := "Food allergies", items := some { type := "string" } }),
           ("cuisine_preferences", { type := "array", description := "Preferred cuisines", items := some { type := "string" } })],
         required := some ["user_id", "calorie_target"] } }),
  ("plan_generate_from_leftovers",
   { category := "Meal Planning",
     description := "Use when the user lists ingredients on hand and asks 'What can I make?', 'I have eggs and spinach', or 'Use up my leftovers'. This creates one or more meals from available ingredients using the nutrition database.",
     input_schema :=
       { type := "object",
         properties := [
           ("user_id", { type := "string", description := "Unique user identifier" }),
           ("ingredients", { type := "array", description := "Available ingredients", items := some { type := "string" } })],
         required := some ["user_id", "ingredients"] } }),
  ("plan_random_meal",
   { category := "Meal Planning",
     description := "Use when the user asks for a quick meal suggestion such as 'Give me a healthy dinner idea', 'Suggest a breakfast', or 'Random meal for lunch'. This is a lightweight generator for single meal ideas.",
     input_schema :=
       { type := "object",
         properties := [
           ("user_id", { type := "string", description := "Unique user identifier" }),
           ("meal_type", { type := "string", description := "Type of meal", enum := some ["breakfast", "lunch", "dinner", "snack"] })],
         required := some ["user_id", "meal_type"] } }),
  ("plan_get_active_plan",
   { category := "Meal Planning",
     description := "Use when you need to fetch the user's current active meal plan for review, reuse, or reference. This is a read-only tool that retrieves stored plans.",
     input_schema :=
       { type := "object",
         properties := [
           ("user_id", { type := "string", description := "Unique user identifier" }),
           ("plan_id", { type := "string", description := "Optional specific plan ID" })],
         required := some ["user_id"] } }),
  ("nutrition_analyze_food",
   { category := "Nutrition Analysis",
     description := "Use when the user lists foods or recipes and asks 'What's in this?', 'How many calories?', 'Analyze this smoothie', or 'Nutrition facts for...'. This returns detailed macros and micros per serving using the 1,000-food database.",
     input_schema :=
       { type := "object",
         properties := [
           ("ingredients", { type := "array", description := "List of ingredients", items := some { type := "string" } }),
           ("quantity", { type := "number", description := "Serving quantity" }),
           ("unit", { type := "string", description := "Unit of measurement" })],
         required := some ["ingredients"] } }),
  ("nutrition_get_macros",
   { category := "Nutrition Analysis",
     description := "Use when you need to summarize total macros from an existing plan or tracker entry. This aggregates calories, protein, carbs, and fat from multiple sources.",
     input_schema :=
       { type := "object",
         properties := [
           ("source_id", { type := "string", description := "Plan ID or tracker ID" }),
           ("source_type", { type := "string", description := "Type of source", enum := some ["plan", "tracker"] })],
         required := some ["source_id", "source_type"] } }),
  ("nutrition_compare_foods",
   { category := "Nutrition Analysis",
     description := "Use when the user asks to compare two foods such as 'Chicken vs Tofu', 'Which has more protein?', or 'Compare brown rice and quinoa'. This returns nutritional differences side-by-side.",
     input_schema :=
       { type := "object",
         properties := [
           ("food_a", { type := "string", description := "First food name" }),
           ("food_b", { type := "string", description := "Second food name" })],
         required := some ["food_a", "food_b"] } }),
  ("nutrition_get_recommendations",
   { category := "Nutrition Analysis",
     description := "Use when the user asks 'What foods are high in iron/protein/fiber?', 'Best sources of vitamin C?', or 'Foods rich in...'. This is a discovery tool that lists foods by nutrient content.",
     input_schema :=
       { type := "object",
         properties := [
           ("nutrient_name", { type := "string", description := "Nutrient to search for (e.g., 'protein', 'iron', 'vitamin C')" })],
         required := some ["nutrient_name"] } }),
  ("tracker_log_meal",
   { category := "Tracking & Progress",
     description := "Use when the user records a meal or snack manually such as 'I ate oatmeal for breakfast', 'Log my lunch', or 'I had a protein shake'. This creates a tracker entry for adherence monitoring.",
     input_schema :=
       { type := "object",
         properties := [
           ("user_id", { type := "string", description := "Unique user identifier" }),
           ("meal_name", { type := "string", description := "Name of the meal" }),
           ("ingredients", { type := "array", description := "List of ingredients", items := some { type := "string" } }),
           ("time", { type := "string", description := "Time of meal (ISO 8601)" }),
           ("calories", { type := "number", description := "Optional manual calorie entry" })],
         required := some ["user_id", "meal_name"] } }),
  ("tracker_log_weight",
   { category := "Tracking & Progress",
     description := "Use when the user provides current weight such as 'I weigh 72 kg today', 'My weight is 160 lbs', or 'Log my weight'. This updates the weight trend used by the feedback loop.",
     input_schema :=
       { type := "object",
         properties := [
           ("user_id", { type := "string", description := "Unique user identifier" }),
           ("weight_kg", { type := "number", description := "Weight in kilograms" }),
           ("date", { type := "string", description := "Date of measurement (ISO 8601)" }),
           ("notes", { type := "string", description := "Optional notes" })],
         required := some ["user_id", "weight_kg"] } }),
  ("tracker_get_progress",
   { category := "Tracking & Progress",
     description := "Use when you need to retrieve historical weight and macro trends for charts or summaries. This returns time-series data for visualization.",
     input_schema :=
       { type := "object",
         properties := [
           ("user_id", { type := "string", description := "Unique user identifier" }),
           ("timespan_days", { type := "integer", description := "Number of days to retrieve (7, 30, 90)" })],
         required := some ["user_id", "timespan_days"] } }),
  ("tracker_summary",
   { category := "Tracking & Progress",
     description := "Use when the user asks 'How am I doing?', 'Show my progress', or 'Weekly summary'. This aggregates macros, adherence, and goal progress for a specified period. Prefer tracker_summary for 'How am I doing?'; use loop_evaluate_plan only when the user mentions comparing plan vs actuals.",
     input_schema :=
       { type := "object",
         properties := [
           ("user_id", { type := "string", description := "Unique user identifier" }),
           ("period", { type := "string", description := "Summary period", enum := some ["day", "week", "month"] })],
         required := some ["user_id", "period"] } }),
  ("loop_evaluate_plan",
   { category := "Feedback Loop",
     description := "Use when the user asks 'Did I follow the plan?', 'How well did I do?', or 'Evaluate my adherence'. This compares the active plan versus actual tracking data to measure compliance. Use only when the user mentions comparing plan vs actuals.",
     input_schema :=
       { type := "object",
         properties := [
           ("user_id", { type := "string", description := "Unique user identifier" }),
           ("plan_id", { type := "string", description := "Plan identifier to evaluate" }),
           ("tracker_range", { type := "string", description := "Date range for tracker data" })],
         required := some ["user_id", "plan_id"] } }),
  ("loop_adjust_calories",
   { category := "Feedback Loop",
     description := "Use when the user says 'Adjust my meals', 'I didn't lose enough weight', or 'Increase my calories'. This modifies the calorie target or macros for future plans based on results. Use after loop_evaluate_plan or when the user explicitly asks to change targets.",
     input_schema :=
       { type := "object",
         properties := [
           ("user_id", { type := "string", description := "Unique user identifier" }),
           ("adjustment_factor", { type := "number", description := "Multiplier for adjustment (0.9 = -10%, 1.1 = +10%)" }),
           ("new_target", { type := "number", description := "Optional explicit new calorie target" })],
         required := some ["user_id"] } }),
  ("loop_predict_outcome",
   { category := "Feedback Loop",
     description := "Use when the user asks 'What will I weigh in 2 weeks?', 'Predict my progress', or 'When will I reach my goal?'. This forecasts future progress based on current trend.",
     input_schema :=
       { type := "object",
         properties := [
           ("user_id", { type := "string", description := "Unique user identifier" }),
           ("days_ahead", { type := "integer", description := "Number of days to forecast" })],
         required := some ["user_id", "days_ahead"] } }),
  ("delivery_search_restaurants",
   { category := "Delivery & Integrations",
     description := "Use when the user asks for nearby delivery options matching their diet plan such as 'Find vegan restaurants', 'Delivery near me', or 'Where can I order keto food?'. This uses MealMe / DoorDash API.",
     input_schema :=
       { type := "object",
         properties := [
           ("location", { type := "string", description := "Address or coordinates" }),
           ("diet_tags", { type := "array", description := "Diet filters (vegan, keto, etc.)", items := some { type := "string" } })],
         required := some ["location"] } }),
  ("delivery_get_menu",
   { category := "Delivery & Integrations",
     description := "Supporting tool. Only call when another tool's output requests a menu fetch. Use to fetch the menu for a given restaurant ID.",
     input_schema :=
       { type := "object",
         properties := [
           ("restaurant_id", { type := "string", description := "Restaurant identifier from search" })],
         required := some ["restaurant_id"] } }),
  ("delivery_place_order",
   { category := "Delivery & Integrations",
     description := "Use when the user says 'Order my lunch', 'Place this order', or 'Checkout'. This places a food order through partner APIs (Premium feature).",
     input_schema :=
       { type := "object",
         properties := [
           ("user_id", { type := "string", description := "Unique user identifier" }),
           ("restaurant_id", { type := "string", description := "Restaurant identifier" }),
           ("menu_item_id", { type := "string", description := "Menu item to order" })],
         required := some ["user_id", "restaurant_id", "menu_item_id"] } }),
  ("sys_get_help",
   { category := "System & Support",
     description := "Developer-only; do not call in normal user flows. Use when the user asks 'What can you do?', 'List all tools', or 'Help me understand your features'. This provides a developer-facing tool list with usage examples.",
     input_schema :=
       { type := "object",
         properties := [],
         required := none } }),
  ("sys_healthcheck",
   { category := "System & Support",
     description := "Developer-only; do not call in normal user flows. Use for monitoring or debugging. Returns system status, active manifest version, and database checksum.",
     input_schema :=
       { type := "object",
         properties := [],
         required := none } }),
  ("sys_debug_tool_choice_log",
   { category := "System & Support",
     description := "Developer-only; do not call in normal user flows. Use to log tool-selection context for QA and routing accuracy analysis. This is a dev-only tool that tracks which tool was chosen and why.",
     input_schema :=
       { type := "object",
         properties := [
           ("input", { type := "string", description := "User's original query" }),
           ("chosen_tool", { type := "string", description := "Tool that was selected" }),
           ("confidence", { type := "number", description := "Confidence score (0-1)" })],
         required := some ["input", "chosen_tool"] } })]

def DEPRECATED_ALIASES : List (String × DeprecatedAlias) := [
  ("set_weight_goal",
   { redirect_to := "user_set_weight_goal",
     description := "[DEPRECATED] Alias for user_set_weight_goal. Use only if legacy code still calls this name. Will be removed in v2.1.0.",
     category := "Deprecated" }),
  ("tracker_set_goals",
   { redirect_to := "user_set_weight_goal",
     description := "[DEPRECATED] Alias for user_set_weight_goal. Use only if legacy code still calls this name. Will be removed in v2.1.0.",
     category := "Deprecated" }),
  ("get_user_profile",
   { redirect_to := "user_get_profile",
     description := "[DEPRECATED] Alias for user_get_profile. Use only if legacy code still calls this name. Will be removed in v2.1.0.",
     category := "Deprecated" }),
  ("update_diet_preferences",
   { redirect_to := "user_update_diet_preferences",
     description := "[DEPRECATED] Alias for user_update_diet_preferences. Use only if legacy code still calls this name. Will be removed in v2.1.0.",
     category := "Deprecated" }),
  ("create_meal_plan",
   { redirect_to := "plan_create_meal_plan",
     description := "[DEPRECATED] Alias for plan_create_meal_plan. Use only if legacy code still calls this name. Will be removed in v2.1.0.",
     category := "Deprecated" }),
  ("generate_recipes",
   { redirect_to := "plan_generate_from_leftovers",
     description := "[DEPRECATED] Alias for plan_generate_from_leftovers. Use only if legacy code still calls this name. Will be removed in v2.1.0.",
     category := "Deprecated" }),
  ("random_meal",
   { redirect_to := "plan_random_meal",
     description := "[DEPRECATED] Alias for plan_random_meal. Use only if legacy code still calls this name. Will be removed in v2.1.0.",
     category := "Deprecated" }),
  ("nutrition_analyze",
   { redirect_to := "nutrition_analyze_food",
     description := "[DEPRECATED] Alias for nutrition_analyze_food. Use only if legacy code still calls this name. Will be removed in v2.1.0.",
     category := "Deprecated" }),
  ("get_weight_history",
   { redirect_to := "tracker_get_progress",
     description := "[DEPRECATED] Alias for tracker_get_progress. Use only if legacy code still calls this name. Will be removed in v2.1.0.",
     category := "Deprecated" }),
  ("get_weight_trend",
   { redirect_to := "tracker_get_progress",
     description := "[DEPRECATED] Alias for tracker_get_progress. Use only if legacy code still calls this name. Will be removed in v2.1.0.",
     category := "Deprecated" }),
  ("order_meal_delivery",
   { redirect_to := "delivery_place_order",
     description := "[DEPRECATED] Alias for delivery_place_order. Use only if legacy code still calls this name. Will be removed in v2.1.0.",
     category := "Deprecated" }),
  ("mealme_search",
   { redirect_to := "delivery_search_restaurants",
     description := "[DEPRECATED] Alias for delivery_search_restaurants. Use only if legacy code still calls this name. Will be removed in v2.1.0.",
     category := "Deprecated" })]

end Approved


/-- The manifest document the original script builds from its built-in
registries (`generate_manifest()` at module scope). -/
def manifest_v2 : ManifestDocument :=
  V2.generate_manifest V2.TOOLS V2.DEPRECATED_ALIASES

/-- The manifest document the approved script builds from its built-in
registries. -/
def manifest_v2_approved : ManifestDocument :=
  Approved.generate_manifest Approved.TOOLS Approved.DEPRECATED_ALIASES

/-- A minimal concrete tool definition used as test input. -/
def sampleTool : ToolDefinition :=
  { category := "General"
    description := "sample tool"
    input_schema := { type := "object", properties := [], required := none } }

/-- A minimal concrete deprecated alias with a chosen redirect target,
used as test input. -/
def sampleAlias (target : String) : DeprecatedAlias :=
  { redirect_to := target
    description := "sample alias"
    category := "Deprecated" }

theorem map_activeEntry_names (ts : List (String × ToolDefinition)) :
    (ts.map activeEntry).map ManifestTool.name = ts.map Prod.fst := by
  induction ts with
  | nil => rfl
  | cons p ps ih => simp [activeEntry, ih]

theorem map_aliasEntry_names (as : List (String × DeprecatedAlias)) :
    (as.map aliasEntry).map ManifestTool.name = as.map Prod.fst := by
  induction as with
  | nil => rfl
  | cons p ps ih => simp [aliasEntry, ih]

theorem map_aliasEntry_redirects (as : List (String × DeprecatedAlias)) :
    (as.map aliasEntry).map ManifestTool.redirect_to
      = as.map (fun p => some p.2.redirect_to) := by
  induction as with
  | nil => rfl
  | cons p ps ih => simp [aliasEntry, ih]

theorem filter_isActive_activeEntries (ts : List (String × ToolDefinition)) :
    (ts.map activeEntry).filter ManifestTool.isActiveEntry = ts.map activeEntry := by
  induction ts with
  | nil => rfl
  | cons p ps ih =>
      simp [List.filter_cons, activeEntry, ManifestTool.isActiveEntry, ih]

theorem filter_isActive_aliasEntries (as : List (String × DeprecatedAlias)) :
    (as.map aliasEntry).filter ManifestTool.isActiveEntry = [] := by
  induction as with
  | nil => rfl
  | cons p ps ih =>
      simp [List.filter_cons, aliasEntry, ManifestTool.isActiveEntry, ih]

theorem filter_isDeprecated_activeEntries (ts : List (String × ToolDefinition)) :
    (ts.map activeEntry).filter ManifestTool.isDeprecatedEntry = [] := by
  induction ts with
  | nil => rfl
  | cons p ps ih =>
      simp [List.filter_cons, activeEntry, ManifestTool.isDeprecatedEntry, ih]

theorem filter_isDeprecated_aliasEntries (as : List (String × DeprecatedAlias)) :
    (as.map aliasEntry).filter ManifestTool.isDeprecatedEntry = as.map aliasEntry := by
  induction as with
  | nil => rfl
  | cons p ps ih =>
      simp [List.filter_cons, aliasEntry, ManifestTool.isDeprecatedEntry, ih]

theorem entries_shape (ts : List (String × ToolDefinition))
    (as : List (String × DeprecatedAlias)) :
    ∀ t ∈ ts.map activeEntry ++ as.map aliasEntry,
      (t.deprecated = none →
        t.redirect_to = none
          ∧ ∃ p ∈ ts, p.1 = t.name ∧ t.input_schema = p.2.input_schema)
      ∧ (t.deprecated ≠ none →
        t.deprecated = some true
          ∧ t.input_schema = { type := "object", properties := [], required := none }
          ∧ ∃ p ∈ as, p.1 = t.name ∧ t.redirect_to = some p.2.redirect_to) := by
  intro t ht
  rcases List.mem_append.mp ht with h | h
  · rcases List.mem_map.mp h with ⟨p, hp, rfl⟩
    exact ⟨fun _ => ⟨rfl, ⟨p, ⟨hp, ⟨rfl, rfl⟩⟩⟩⟩, fun hd => absurd rfl hd⟩
  · rcases List.mem_map.mp h with ⟨p, hp, rfl⟩
    exact ⟨(fun hd => nomatch hd), fun _ => ⟨rfl, ⟨rfl, ⟨p, ⟨hp, ⟨rfl, rfl⟩⟩⟩⟩⟩⟩

/-- C1 (counterexample): running the compile step of
generate_manifest_v2.py on an active tool named "a" together with an
alias named "a" raises nothing and emits a full document holding both
entries named "a" — no DuplicateNameError exists in the code. -/
theorem claim_C1_counterexample :
    ((V2.generate_manifest [("a", sampleTool)] [("a", sampleAlias "a")]).tools.map
        (fun t => (t.name, t.deprecated))) = [("a", none), ("a", some true)] := by
  decide

/-- C1 (amended): the compile operation performs no duplicate-name
validation and never fails: for every pair of registries — including
when a name is a key of both mappings — it emits a document whose
tools carry every name of both registries in order, duplicates
included. -/
theorem claim_C1_amended (ts : List (String × ToolDefinition))
    (as : List (String × DeprecatedAlias)) :
    ((V2.generate_manifest ts as).tools.map ManifestTool.name)
      = ts.map Prod.fst ++ as.map Prod.fst := by
  show ((ts.map activeEntry ++ as.map aliasEntry).map ManifestTool.name) = _
  rw [List.map_append, map_activeEntry_names, map_aliasEntry_names]

/-- C2 (counterexample): an alias "x" whose redirect_to is
"nonexistent", with no active tool of that name, raises nothing: the
code emits a full document carrying the dangling redirect verbatim —
no DanglingRedirectError exists in the code. -/
theorem claim_C2_counterexample :
    ((V2.generate_manifest [("a", sampleTool)] [("x", sampleAlias "nonexistent")]).tools.map
        (fun t => (t.name, t.redirect_to))) = [("a", none), ("x", some "nonexistent")] := by
  decide

/-- C2 (amended): the compile operation performs no dangling-redirect
validation and never fails: for every pair of registries it emits a
document whose deprecated entries carry each alias's redirect_to
verbatim, whether or not the target is a key of the active-tools
mapping. -/
theorem claim_C2_amended (ts : List (String × ToolDefinition))
    (as : List (String × DeprecatedAlias)) :
    ((V2.generate_manifest ts as).tools.filter ManifestTool.isDeprecatedEntry).map
        ManifestTool.redirect_to
      = as.map (fun p => some p.2.redirect_to) := by
  show ((ts.map activeEntry ++ as.map aliasEntry).filter ManifestTool.isDeprecatedEntry).map
      ManifestTool.redirect_to = _
  rw [List.filter_append, filter_isDeprecated_activeEntries,
    filter_isDeprecated_aliasEntries, List.nil_append, map_aliasEntry_redirects]

/-- C3: for every pair of input registries, both scripts' compile
operations produce a tools sequence of length exactly
|activeTools| + |deprecatedAliases|. -/
theorem claim_C3 (ts : List (String × ToolDefinition))
    (as : List (String × DeprecatedAlias)) :
    (V2.generate_manifest ts as).tools.length = ts.length + as.length
    ∧ (Approved.generate_manifest ts as).tools.length = ts.length + as.length := by
  constructor <;> simp [V2.generate_manifest, Approved.generate_manifest]

/-- C4: for every pair of input registries, in both scripts' outputs
all active entries precede all deprecated entries (the tools sequence
is its active part followed by its deprecated part), active entries
appear in activeTools insertion order, and alias entries appear in
deprecatedAliases insertion order. -/
theorem claim_C4 (ts : List (String × ToolDefinition))
    (as : List (String × DeprecatedAlias)) :
    ((V2.generate_manifest ts as).tools
        = (V2.generate_manifest ts as).tools.filter ManifestTool.isActiveEntry
          ++ (V2.generate_manifest ts as).tools.filter ManifestTool.isDeprecatedEntry)
    ∧ ((V2.generate_manifest ts as).tools.filter ManifestTool.isActiveEntry).map
        ManifestTool.name = ts.map Prod.fst
    ∧ ((V2.generate_manifest ts as).tools.filter ManifestTool.isDeprecatedEntry).map
        ManifestTool.name = as.map Prod.fst
    ∧ ((Approved.generate_manifest ts as).tools
        = (Approved.generate_manifest ts as).tools.filter ManifestTool.isActiveEntry
          ++ (Approved.generate_manifest ts as).tools.filter ManifestTool.isDeprecatedEntry)
    ∧ ((Approved.generate_manifest ts as).tools.filter ManifestTool.isActiveEntry).map
        ManifestTool.name = ts.map Prod.fst
    ∧ ((Approved.generate_manifest ts as).tools.filter ManifestTool.isDeprecatedEntry).map
        ManifestTool.name = as.map Prod.fst := by
  refine ⟨?_, ?_, ?_, ?_, ?_, ?_⟩ <;>
    simp only [V2.generate_manifest, Approved.generate_manifest, List.filter_append,
      filter_isActive_activeEntries, filter_isActive_aliasEntries,
      filter_isDeprecated_activeEntries, filter_isDeprecated_aliasEntries,
      List.append_nil, List.nil_append, map_activeEntry_names, map_aliasEntry_names]

/-- C5 (counterexample): with an alias whose registry redirect_to is
the empty string, the alias entry of the emitted document carries
redirect_to = some "" — an empty redirect — so "every alias entry
carries a non-empty redirect_to" fails for this pair of registries. -/
theorem claim_C5_counterexample :
    ((V2.generate_manifest [("a", sampleTool)] [("x", sampleAlias "")]).tools.map
        (fun t => (t.deprecated, t.redirect_to)))
      = [(none, none), (some true, some "")] := by
  decide

/-- C5 (amended): for every pair of input registries, in both scripts'
outputs every active entry has no deprecated and no redirect_to field
and carries the full input_schema of its registry tool, and every
alias entry carries deprecated = true, an empty-object input_schema,
and redirect_to equal to its registry alias's redirect_to (hence
non-empty exactly when the registry value is non-empty). -/
theorem claim_C5_amended (ts : List (String × ToolDefinition))
    (as : List (String × DeprecatedAlias)) :
    (∀ t ∈ (V2.generate_manifest ts as).tools,
      (t.deprecated = none →
        t.redirect_to = none
          ∧ ∃ p ∈ ts, p.1 = t.name ∧ t.input_schema = p.2.input_schema)
      ∧ (t.deprecated ≠ none →
        t.deprecated = some true
          ∧ t.input_schema = { type := "object", properties := [], required := none }
          ∧ ∃ p ∈ as, p.1 = t.name ∧ t.redirect_to = some p.2.redirect_to))
    ∧ (∀ t ∈ (Approved.generate_manifest ts as).tools,
      (t.deprecated = none →
        t.redirect_to = none
          ∧ ∃ p ∈ ts, p.1 = t.name ∧ t.input_schema = p.2.input_schema)
      ∧ (t.deprecated ≠ none →
        t.deprecated = some true
          ∧ t.input_schema = { type := "object", properties := [], required := none }
          ∧ ∃ p ∈ as, p.1 = t.name ∧ t.redirect_to = some p.2.redirect_to)) :=
  ⟨entries_shape ts as, entries_shape ts as⟩

/-- C5 (witness): the amended theorem applied at a concrete pair of
registries: the active entry built from ("a", sampleTool) has no
redirect_to field. -/
theorem claim_C5_witness :
    (activeEntry ("a", sampleTool)).redirect_to = none :=
  (((claim_C5_amended [("a", sampleTool)] [("x", sampleAlias "a")]).1
      (activeEntry ("a", sampleTool)) (by decide)).1 rfl).1

/-- C6: over the built-in registries of both scripts, all name values
across the emitted tools sequence are pairwise distinct
(case-sensitive). -/
theorem claim_C6 :
    (manifest_v2.tools.map ManifestTool.name).Nodup
    ∧ (manifest_v2_approved.tools.map ManifestTool.name).Nodup := by
  constructor <;> decide

/-- C7: in both built-in documents, every alias entry's redirect_to
equals the name of some active (non-deprecated) entry of the same
document. -/
theorem claim_C7 :
    (∀ t ∈ manifest_v2.tools, t.deprecated = some true →
      ∃ s ∈ manifest_v2.tools, s.deprecated = none ∧ t.redirect_to = some s.name)
    ∧ (∀ t ∈ manifest_v2_approved.tools, t.deprecated = some true →
      ∃ s ∈ manifest_v2_approved.tools, s.deprecated = none ∧ t.redirect_to = some s.name) := by
  constructor <;> decide

/-- C7 (witness): applying C7 to the first alias entry of the original
script's document (index 30, "tracker_set_goals"). -/
theorem claim_C7_witness :
    ∃ s ∈ manifest_v2.tools, s.deprecated = none ∧
      (manifest_v2.tools.getD 30 (activeEntry ("z", sampleTool))).redirect_to = some s.name :=
  claim_C7.1 (manifest_v2.tools.getD 30 (activeEntry ("z", sampleTool)))
    (by decide) (by decide)

/-- C8: compilation is deterministic — any two invocations of either
script's compile operation on the same pair of registries yield equal
documents.  (The embedded operation is a pure function of its two
registries: the source function only constructs fresh objects and
never mutates its module-level inputs; the file write sits outside
generate_manifest.) -/
theorem claim_C8 (ts : List (String × ToolDefinition))
    (as : List (String × DeprecatedAlias)) (d₁ d₂ e₁ e₂ : ManifestDocument)
    (h₁ : d₁ = V2.generate_manifest ts as) (h₂ : d₂ = V2.generate_manifest ts as)
    (h₃ : e₁ = Approved.generate_manifest ts as)
    (h₄ : e₂ = Approved.generate_manifest ts as) :
    d₁ = d₂ ∧ e₁ = e₂ := by
  subst h₁ h₂ h₃ h₄
  exact ⟨rfl, rfl⟩

/-- C8 (witness): C8 applied at the original script's built-in
registries. -/
theorem claim_C8_witness :
    manifest_v2 = manifest_v2
    ∧ Approved.generate_manifest V2.TOOLS V2.DEPRECATED_ALIASES
        = Approved.generate_manifest V2.TOOLS V2.DEPRECATED_ALIASES :=
  claim_C8 V2.TOOLS V2.DEPRECATED_ALIASES manifest_v2 manifest_v2
    (Approved.generate_manifest V2.TOOLS V2.DEPRECATED_ALIASES)
    (Approved.generate_manifest V2.TOOLS V2.DEPRECATED_ALIASES) rfl rfl rfl rfl

/-- C9: the two scripts' documents agree on every top-level metadata
field other than tools: name, description, version "2.0.0",
schema_version "v1", namespace "loopgpt", contact_email, api type and
url, and authentication type. -/
theorem claim_C9 :
    manifest_v2.name = manifest_v2_approved.name
    ∧ manifest_v2.description = manifest_v2_approved.description
    ∧ manifest_v2.version = manifest_v2_approved.version
    ∧ manifest_v2.version = "2.0.0"
    ∧ manifest_v2.schema_version = manifest_v2_approved.schema_version
    ∧ manifest_v2.schema_version = "v1"
    ∧ manifest_v2.«namespace» = manifest_v2_approved.«namespace»
    ∧ manifest_v2.«namespace» = "loopgpt"
    ∧ manifest_v2.contact_email = manifest_v2_approved.contact_email
    ∧ manifest_v2.api = manifest_v2_approved.api
    ∧ manifest_v2.authentication = manifest_v2_approved.authentication :=
  ⟨rfl, rfl, rfl, rfl, rfl, rfl, rfl, rfl, rfl, rfl, rfl⟩

/-- C10: in both scripts' built-in active-tool registries, every name
listed in a tool's required array also appears as a key of its
properties object. -/
theorem claim_C10 :
    (∀ p ∈ V2.TOOLS, ∀ r ∈ p.2.input_schema.required.getD [],
      r ∈ p.2.input_schema.properties.map Prod.fst)
    ∧ (∀ p ∈ Approved.TOOLS, ∀ r ∈ p.2.input_schema.required.getD [],
      r ∈ p.2.input_schema.properties.map Prod.fst) := by
  constructor <;> decide

/-- C10 (witness): applying C10 to the first registry entry,
"user_get_profile", and its required name "user_id". -/
theorem claim_C10_witness :
    "user_id" ∈ ((V2.TOOLS.getD 0 ("z", sampleTool)).2.input_schema.properties.map Prod.fst) :=
  claim_C10.1 (V2.TOOLS.getD 0 ("z", sampleTool)) (by decide) "user_id" (by decide)
